import Mathlib

/-!
Verification of the Clipdozer playback/scrub core against its specification.

The Python source is shallowly embedded: times, durations and frame rates are
modelled as rationals (`ℚ`), Python `int`s as `ℤ`/`ℕ`, Qt signal emissions as
explicit event lists, and exceptions as explicit boolean outcomes.  Each
definition mirrors one Python function of the repository; the theorems below
settle the specification's claims about them.
-/

namespace Clipdozer

/-! ## Numeric helpers modelling Python primitives -/

/-- Python `int(x)` applied to a number: truncation toward zero. -/
def pyTrunc (q : ℚ) : ℤ := if 0 ≤ q then ⌊q⌋ else ⌈q⌉

/-- Python 3 `round(x)` (banker's rounding: round half to even). -/
def pyRound (q : ℚ) : ℤ :=
  if q - ⌊q⌋ < 1/2 then ⌊q⌋
  else if (1:ℚ)/2 < q - ⌊q⌋ then ⌊q⌋ + 1
  else if ⌊q⌋ % 2 = 0 then ⌊q⌋ else ⌊q⌋ + 1

/-- Decimal ROUND_HALF_UP for a nonnegative quantity: round half away from
zero, which for `0 ≤ q` is `⌊q + 1/2⌋`. -/
def roundHalfUp (q : ℚ) : ℤ := ⌊q + 1/2⌋

/-- Python `x or d` on floats, where `0.0` is falsy: `d` when `x = 0`. -/
def orDefault (x d : ℚ) : ℚ := if x = 0 then d else x

/-! ## Time formatter (`src/app/utils/timefmt.py`, `format_time`)

`format_time` clamps negative inputs to `0`, converts to milliseconds with
ROUND_HALF_UP, then splits with `divmod` and renders zero-padded decimal
components.  Decimal digits are rendered by `digCh`/`natDigits` (the value is
nonnegative at that point, see `roundHalfUp_nonneg`, so `Int.toNat` is exact
and Python's decimal rendering of the components coincides with `natDigits`).
-/

/-- The decimal digit character of `n % 10` (codepoints 48–57). -/
def digCh (n : ℕ) : Char := Char.ofNat (48 + n % 10)

/-- Fuel-indexed decimal digit rendering; `fuel ≥ n + 1` is always enough. -/
def natDigitsAux : ℕ → ℕ → List Char
  | 0, _ => []
  | fuel + 1, n => if n < 10 then [digCh n] else natDigitsAux fuel (n / 10) ++ [digCh n]

/-- Decimal digits of a natural number, most significant first. -/
def natDigits (n : ℕ) : List Char := natDigitsAux (n + 1) n

/-- Python `"{:0Nd}".format` zero padding for a nonnegative value. -/
def zfill (w : ℕ) (cs : List Char) : List Char := List.replicate (w - cs.length) '0' ++ cs

/-- Millisecond total of `format_time`: clamp negatives to `0`, then round the
millisecond count HALF_UP.  The result is nonnegative (`roundHalfUp_nonneg`),
so `Int.toNat` loses nothing. -/
def msTotal (seconds : ℚ) : ℕ :=
  (roundHalfUp ((if seconds < 0 then 0 else seconds) * 1000)).toNat

/-- The `divmod` split and f-string rendering of `format_time`. -/
def renderMs (mt : ℕ) : String :=
  let m := mt / 60000
  let rem := mt % 60000
  let sec := rem / 1000
  let ms := rem % 1000
  String.mk (zfill 2 (natDigits m) ++ [':'] ++ zfill 2 (natDigits sec) ++ ['.'] ++ zfill 3 (natDigits ms))

/-- Model of `format_time` (timefmt.py lines 12–29). -/
def format_time (seconds : ℚ) : String := renderMs (msTotal seconds)

/-! ## Marker pair (`src/app/timeline.py`, `TimelineWidget.setInPoint` /
`setOutPoint` / `clearInPoint` / `clearOutPoint`)

The marker state of the scrub bar: the widget duration and the two optional
timestamps.  `setInPoint`/`setOutPoint` read the slider's current position; we
take that position as a parameter (the code's `currentPosition()` value). -/

structure MarkerState where
  duration : ℚ
  in_point : Option ℚ
  out_point : Option ℚ
  deriving DecidableEq

/-- Model of `TimelineWidget.setInPoint` (timeline.py lines 345–356). -/
def setInPoint (s : MarkerState) (pos : ℚ) : MarkerState :=
  if s.duration ≤ 0 then s
  else
    match s.out_point with
    | some op =>
      if op < pos then { s with in_point := some pos, out_point := none }
      else { s with in_point := some pos }
    | none => { s with in_point := some pos }

/-- Model of `TimelineWidget.setOutPoint` (timeline.py lines 365–376). -/
def setOutPoint (s : MarkerState) (pos : ℚ) : MarkerState :=
  if s.duration ≤ 0 then s
  else
    match s.in_point with
    | some ip =>
      if pos < ip then { s with out_point := some pos, in_point := none }
      else { s with out_point := some pos }
    | none => { s with out_point := some pos }

/-- Model of `TimelineWidget.clearInPoint` (timeline.py lines 358–363). -/
def clearInPoint (s : MarkerState) : MarkerState := { s with in_point := none }

/-- Model of `TimelineWidget.clearOutPoint` (timeline.py lines 378–383). -/
def clearOutPoint (s : MarkerState) : MarkerState := { s with out_point := none }

/-- One marker set/clear operation; a set carries the slider position read by
`currentPosition()` at that moment. -/
inductive MarkerOp where
  | setIn (pos : ℚ)
  | setOut (pos : ℚ)
  | clearIn
  | clearOut
  deriving DecidableEq

def applyMarkerOp (s : MarkerState) : MarkerOp → MarkerState
  | .setIn pos => setInPoint s pos
  | .setOut pos => setOutPoint s pos
  | .clearIn => clearInPoint s
  | .clearOut => clearOutPoint s

def applyMarkerOps (s : MarkerState) (ops : List MarkerOp) : MarkerState :=
  ops.foldl applyMarkerOp s

/-- The marker invariant: `in ≤ out` whenever both are set. -/
def MarkerInv (s : MarkerState) : Prop :=
  ∀ i o, s.in_point = some i → s.out_point = some o → i ≤ o

/-! ## Generation-token gating of background results
(`src/app/timeline.py`: `_onThumbsReady`/`_onThumbsFailed` lines 514–540,
`_waveformReady`/`_waveformFailed` lines 230–246,
`_startThumbnailGeneration` line 485, `_startWaveformGeneration` line 215)

The displayed thumbnail strip / waveform of the widget, the generator's
current token, and the handlers that apply or discard results.  Incoming
thumbnail images are modelled as `Option ℕ`: `some` for values that pass the
`isinstance(img, QImage)` check, which the code converts to pixmaps. -/

structure ThumbView where
  gen_id : ℕ
  strip_visible : Bool
  strip_data : Option (List ℕ × List ℚ × ℚ)
  widget_duration : ℚ
  strip_time : ℚ
  deriving DecidableEq

structure WaveView where
  gen_id : ℕ
  visible : Bool
  data : Option (List ℚ × ℚ)
  cur_time : ℚ
  deriving DecidableEq

/-- Model of `_startThumbnailGeneration`: bumps `_thumb_gen_id`. -/
def startThumbs (s : ThumbView) : ThumbView := { s with gen_id := s.gen_id + 1 }

/-- Model of `_startWaveformGeneration`: bumps `_wave_gen_id`. -/
def startWave (s : WaveView) : WaveView := { s with gen_id := s.gen_id + 1 }

/-- Model of `TimelineWidget._onThumbsReady` (timeline.py lines 514–531).
`setDuration` clamps the widget duration at `0` (its marker side effects act
on the marker state modelled above and are not part of the displayed strip). -/
def onThumbsReady (s : ThumbView) (gen : ℕ) (images : List (Option ℕ))
    (times : List ℚ) (duration : ℚ) : ThumbView :=
  if gen ≠ s.gen_id then s
  else
    let s1 := { s with widget_duration := max 0 duration }
    let pixmaps := images.filterMap id
    if pixmaps.isEmpty then { s1 with strip_visible := false }
    else { s1 with strip_data := some (pixmaps, times, duration),
                   strip_visible := true, strip_time := 0 }

/-- Model of `TimelineWidget._onThumbsFailed` (timeline.py lines 533–540). -/
def onThumbsFailed (s : ThumbView) (gen : ℕ) (reason : String) : ThumbView :=
  if gen ≠ s.gen_id then s else { s with strip_visible := false }

/-- Model of `_waveformReady` (timeline.py lines 230–237). -/
def onWaveReady (s : WaveView) (gen : ℕ) (amps : List ℚ) (duration : ℚ) : WaveView :=
  if gen ≠ s.gen_id then s
  else if amps.isEmpty then { s with visible := false }
  else { s with data := some (amps, duration), visible := true, cur_time := 0 }

/-- Model of `_waveformFailed` (timeline.py lines 239–242). -/
def onWaveFailed (s : WaveView) (gen : ℕ) (reason : String) : WaveView :=
  if gen ≠ s.gen_id then s else { s with visible := false }

/-- One observable event of a generator's lifecycle: a job start (token bump)
or a completion/failure carrying its job's token. -/
inductive ThumbEv where
  | start
  | ready (gen : ℕ) (images : List (Option ℕ)) (times : List ℚ) (dur : ℚ)
  | failed (gen : ℕ) (reason : String)
  deriving DecidableEq

def thumbStep (s : ThumbView) : ThumbEv → ThumbView
  | .start => startThumbs s
  | .ready gen images times dur => onThumbsReady s gen images times dur
  | .failed gen reason => onThumbsFailed s gen reason

def thumbEvToken : ThumbEv → Option ℕ
  | .start => none
  | .ready gen _ _ _ => some gen
  | .failed gen _ => some gen

inductive WaveEv where
  | start
  | ready (gen : ℕ) (amps : List ℚ) (dur : ℚ)
  | failed (gen : ℕ) (reason : String)
  deriving DecidableEq

def waveStep (s : WaveView) : WaveEv → WaveView
  | .start => startWave s
  | .ready gen amps dur => onWaveReady s gen amps dur
  | .failed gen reason => onWaveFailed s gen reason

def waveEvToken : WaveEv → Option ℕ
  | .start => none
  | .ready gen _ _ => some gen
  | .failed gen _ => some gen

/-! ## Playback controller (`src/app/media/playback.py`,
`VideoPlaybackController`)

Signal emissions are collected in event lists; `get_frame` (which may raise a
decode exception) is modelled by an explicit `decodeOk` outcome: the emitted
`frameReady` event carries only the timestamp, the pixel payload being
irrelevant to the claims.  Wall-clock `perf_counter()` readings are the `now`
parameters. -/

inductive PEvent where
  | frameReady (t : ℚ)
  | positionChanged (t : ℚ)
  | stateChanged (s : String)
  | clipLoaded (d : ℚ)
  deriving DecidableEq

/-- The `PlaybackState` dataclass (playback.py lines 60–66). -/
structure PlaybackState where
  playing : Bool
  current_frame : ℤ
  total_frames : ℤ
  duration : ℚ
  fps : ℚ
  deriving DecidableEq

/-- The controller's own fields: the adapter reference (only its presence
matters), the state, the timer, the play reference time and the pacing
configuration (playback.py lines 75–95). -/
structure Controller where
  hasClip : Bool
  state : PlaybackState
  timerActive : Bool
  play_start_time : Option ℚ
  frame_skip_enabled : Bool
  sync_threshold_frames : ℤ
  deriving DecidableEq

/-- Model of `VideoPlaybackController.position` (playback.py lines 171–174). -/
def position (c : Controller) : ℚ :=
  if c.hasClip = false ∨ c.state.total_frames ≤ 0 then 0
  else c.state.current_frame / orDefault c.state.fps 24

/-- Model of `VideoPlaybackController.seek` (playback.py lines 161–169) with the decode
outcome of `_emit_current_frame` explicit; returns the new controller, the
emitted events, and whether a decode exception escaped. -/
def seekD (c : Controller) (t : ℚ) (emit_frame : Bool) (decodeOk : Bool) :
    Controller × List PEvent × Bool :=
  if c.hasClip = false then (c, [], false)
  else
    let fps := orDefault c.state.fps 24
    let frame_index := max 0 (min (pyTrunc (t * fps)) (c.state.total_frames - 1))
    let c1 := { c with state := { c.state with current_frame := frame_index } }
    if emit_frame then
      if decodeOk then
        (c1, [.frameReady (position c1), .positionChanged (position c1)], false)
      else (c1, [], true)
    else (c1, [.positionChanged (position c1)], false)

/-- The `seek` call on the successful-decode path. -/
def seek (c : Controller) (t : ℚ) (emit_frame : Bool) : Controller × List PEvent :=
  ((seekD c t emit_frame true).1, (seekD c t emit_frame true).2.1)

/-- Model of `VideoPlaybackController.load` (playback.py lines 108–132): the adapter
supplies `fps` and `duration`; state is reset, `clipLoaded` and
`stateChanged "stopped"` are emitted, then an internal `seek(0.0)` runs. -/
def load (c : Controller) (fps duration : ℚ) : Controller × List PEvent :=
  let fps1 := orDefault fps 24
  let total := if 0 < duration then pyRound (fps1 * duration) else 0
  let c1 : Controller :=
    { c with hasClip := true,
             state := { playing := false, current_frame := 0, total_frames := total,
                        duration := duration, fps := fps1 } }
  let r := seek c1 0 true
  (r.1, [.clipLoaded duration, .stateChanged "stopped"] ++ r.2)

/-- Model of `VideoPlaybackController.play` (playback.py lines 134–148). -/
def play (c : Controller) (now : ℚ) : Controller × List PEvent :=
  if c.hasClip = false then (c, [])
  else
    let c1 := if c.state.current_frame ≥ c.state.total_frames - 1
              then { c with state := { c.state with current_frame := 0 } } else c
    let c2 := if c1.timerActive = false
              then { c1 with
                      play_start_time :=
                        some (now - c1.state.current_frame / orDefault c1.state.fps 24),
                      timerActive := true }
              else c1
    ({ c2 with state := { c2.state with playing := true } }, [.stateChanged "playing"])

/-- Model of `VideoPlaybackController.pause` (playback.py lines 150–154). -/
def pause (c : Controller) : Controller × List PEvent :=
  ({ c with timerActive := false, state := { c.state with playing := false } },
   [.stateChanged "paused"])

/-- Model of `VideoPlaybackController.stop` (playback.py lines 156–159): `pause`, then
`seek(0.0)` (which decodes, hence may raise), then `stateChanged "stopped"`. -/
def stopD (c : Controller) (decodeOk : Bool) : Controller × List PEvent × Bool :=
  let p := pause c
  let r := seekD p.1 0 true decodeOk
  if r.2.2 then (r.1, p.2 ++ r.2.1, true)
  else (r.1, p.2 ++ r.2.1 ++ [.stateChanged "stopped"], false)

/-- The target frame computed in `_tick` (playback.py lines 193–207): linear
advance by default; with a play reference time, the wall-clock desired frame
under either pacing policy. -/
def tickTarget (c : Controller) (now : ℚ) : ℤ :=
  let fps := orDefault c.state.fps 24
  let cur := c.state.current_frame
  match c.play_start_time with
  | none => cur + 1
  | some t0 =>
    let desired := pyTrunc ((now - t0) * fps)
    if c.frame_skip_enabled then (if desired > cur then desired else cur + 1)
    else (if desired - cur > c.sync_threshold_frames then desired else cur + 1)

structure TickOut where
  ctrl : Controller
  events : List PEvent
  raised : Bool
  deriving DecidableEq

/-- The frame emission at the end of `_tick` (lines 219–220): `frameReady`
then `positionChanged` when the decode succeeds; otherwise the exception
escapes `_tick` with nothing emitted. -/
def tickEmitTail (c : Controller) (evs : List PEvent) (decodeOk : Bool) : TickOut :=
  if decodeOk then
    ⟨c, evs ++ [.frameReady (position c), .positionChanged (position c)], false⟩
  else ⟨c, evs, true⟩

/-- Model of `VideoPlaybackController._tick` (playback.py lines 184–220).  The
`try`/`except` around the timing code also catches a decode exception raised
by `self.stop()`'s internal seek, falling back to linear advance; mutations
made before the exception persist. -/
def tick (c : Controller) (now : ℚ) (decodeOk : Bool) : TickOut :=
  if c.hasClip = false then ⟨{ c with timerActive := false }, [], false⟩
  else
    let target := tickTarget c now
    if target ≥ c.state.total_frames then
      let r := stopD c decodeOk
      if r.2.2 = false then ⟨r.1, r.2.1, false⟩
      else
        let c1 := r.1
        let next := c1.state.current_frame + 1
        if next ≥ c1.state.total_frames then
          let r2 := stopD c1 decodeOk
          ⟨r2.1, r.2.1 ++ r2.2.1, r2.2.2⟩
        else
          tickEmitTail { c1 with state := { c1.state with current_frame := next } }
            r.2.1 decodeOk
    else
      tickEmitTail { c with state := { c.state with current_frame := target } } [] decodeOk

/-! ## Audio drift correction (`src/app/ui/main_window.py`,
`MainWindow._maybeResyncAudio`, lines 402–418)

`audio_ms` is the audio output's own position clock reading; `t` the video
position update.  Returns the audio position after the handler (the value a
`setPosition` call writes, or the unchanged reading). -/

def maybeResyncAudio (audioPlaying : Bool) (audio_ms : ℤ) (t : ℚ) : ℤ :=
  if audioPlaying = false then audio_ms
  else
    let video_ms := pyTrunc (t * 1000)
    if video_ms - audio_ms > 160 then video_ms else audio_ms

/-- Audio position after a synthetic sequence of video position updates while
audio is playing. -/
def resyncRun (audio0 : ℤ) (ts : List ℚ) : ℤ :=
  ts.foldl (fun a t => maybeResyncAudio true a t) audio0

/-- Events of `positionChanged`, in emission order. -/
def emittedPositions (evs : List PEvent) : List ℚ :=
  evs.filterMap fun ev => match ev with
    | .positionChanged t => some t
    | _ => none

/-- Positions emitted at successive ticks, sampled until the tick that stops
playback (reaching the last frame) or a decode failure. -/
def runPositions (c : Controller) : List ℚ → List ℚ
  | [] => []
  | now :: rest =>
    let r := tick c now true
    if r.ctrl.state.playing then emittedPositions r.events ++ runPositions r.ctrl rest
    else []

/-- Spec-side formula of §8.2, written from the spec's words for comparison
with the code's `seek`: `clamp(round(t*fps), 0, total_frames-1) / fps`. -/
def seekPositionSpec (fps : ℚ) (total_frames : ℤ) (t : ℚ) : ℚ :=
  (max 0 (min (round (t * fps)) (total_frames - 1)) : ℤ) / fps

/-- A freshly constructed controller: no adapter, zeroed state, default
configuration (`frame_skip=True`, `sync_threshold_frames=2`). -/
def initCtrl : Controller :=
  { hasClip := false,
    state := { playing := false, current_frame := 0, total_frames := 0,
               duration := 0, fps := 0 },
    timerActive := false, play_start_time := none,
    frame_skip_enabled := true, sync_threshold_frames := 2 }

/-! ## Theorems -/

theorem pyRound_le (q : ℚ) : (pyRound q : ℚ) ≤ q + 1/2 := by
  unfold pyRound
  have hfl : (⌊q⌋ : ℚ) ≤ q := Int.floor_le q
  split_ifs with h1 h2 h3 <;> push_cast <;> linarith

theorem roundHalfUp_nonneg {q : ℚ} (h : 0 ≤ q) : 0 ≤ roundHalfUp q := by
  unfold roundHalfUp
  positivity

theorem digCh_ne_dash (n : ℕ) : digCh n ≠ '-' := by
  unfold digCh
  have h : n % 10 < 10 := Nat.mod_lt _ (by norm_num)
  set r := n % 10 with hr
  interval_cases r <;> decide

theorem natDigitsAux_ne_dash (fuel n : ℕ) : ∀ c ∈ natDigitsAux fuel n, c ≠ '-' := by
  induction fuel generalizing n with
  | zero => intro c hc; simp [natDigitsAux] at hc
  | succ fuel ih =>
    intro c hc
    unfold natDigitsAux at hc
    split at hc
    · simp at hc; subst hc; exact digCh_ne_dash n
    · rcases List.mem_append.mp hc with h | h
      · exact ih _ c h
      · simp at h; subst h; exact digCh_ne_dash n

theorem natDigits_ne_dash (n : ℕ) : ∀ c ∈ natDigits n, c ≠ '-' :=
  natDigitsAux_ne_dash (n + 1) n

theorem zfill_ne_dash (w : ℕ) (cs : List Char) (h : ∀ c ∈ cs, c ≠ '-') :
    ∀ c ∈ zfill w cs, c ≠ '-' := by
  intro c hc
  rcases List.mem_append.mp hc with h0 | h1
  · have := List.eq_of_mem_replicate h0
    subst this; decide
  · exact h c h1

/-- C9: `format_time (-1) = "00:00.000"`, `format_time 0.9996 = "00:01.000"`
(half-up millisecond rounding), `format_time 61 = "01:01.000"`, and for every
input the rendered string contains no minus sign (no negative component). -/
theorem format_time_spec :
    format_time (-1) = "00:00.000" ∧
    format_time (9996/10000) = "00:01.000" ∧
    format_time 61 = "01:01.000" ∧
    ∀ q : ℚ, '-' ∉ (format_time q).data := by
  have hm1 : msTotal (-1) = 0 := by
    unfold msTotal roundHalfUp
    norm_num
  have hm2 : msTotal (9996/10000) = 1000 := by
    unfold msTotal roundHalfUp
    norm_num
    decide
  have hm3 : msTotal 61 = 61000 := by
    unfold msTotal roundHalfUp
    norm_num
    decide
  refine ⟨?_, ?_, ?_, ?_⟩
  · show renderMs (msTotal (-1)) = _
    rw [hm1]; decide
  · show renderMs (msTotal (9996/10000)) = _
    rw [hm2]; decide
  · show renderMs (msTotal 61) = _
    rw [hm3]; decide
  · intro q h
    unfold format_time renderMs at h
    simp only [String.data] at h
    rcases List.mem_append.mp h with h | h
    · rcases List.mem_append.mp h with h | h
      · rcases List.mem_append.mp h with h | h
        · rcases List.mem_append.mp h with h | h
          · exact zfill_ne_dash _ _ (natDigits_ne_dash _) _ h rfl
          · simp at h
        · exact zfill_ne_dash _ _ (natDigits_ne_dash _) _ h rfl
      · simp at h
    · exact zfill_ne_dash _ _ (natDigits_ne_dash _) _ h rfl

theorem setInPoint_inv {s : MarkerState} (h : MarkerInv s) (pos : ℚ) :
    MarkerInv (setInPoint s pos) := by
  unfold setInPoint
  split_ifs with hd
  · exact h
  · rcases ho : s.out_point with _ | op0 <;> simp only [ho]
    · intro i o hi hoo
      simp only at hoo
      cases hoo
    · split_ifs with hlt
      · intro i o hi hoo
        simp at hoo
      · intro i o hi hoo
        simp only at hi hoo
        cases hi; cases hoo
        exact le_of_not_lt hlt

theorem setOutPoint_inv {s : MarkerState} (h : MarkerInv s) (pos : ℚ) :
    MarkerInv (setOutPoint s pos) := by
  unfold setOutPoint
  split_ifs with hd
  · exact h
  · rcases hi : s.in_point with _ | ip0 <;> simp only [hi]
    · intro i o hii hoo
      simp only at hii
      cases hii
    · split_ifs with hlt
      · intro i o hii hoo
        simp at hii
      · intro i o hii hoo
        simp only at hii hoo
        cases hii; cases hoo
        exact le_of_not_lt hlt

theorem applyMarkerOp_inv {s : MarkerState} (h : MarkerInv s) (op : MarkerOp) :
    MarkerInv (applyMarkerOp s op) := by
  cases op with
  | setIn pos => exact setInPoint_inv h pos
  | setOut pos => exact setOutPoint_inv h pos
  | clearIn =>
    intro i o hi ho
    simp [applyMarkerOp, clearInPoint] at hi
  | clearOut =>
    intro i o hi ho
    simp [applyMarkerOp, clearOutPoint] at ho

/-- C3: over every sequence of marker set/clear operations the invariant
`in ≤ out` (when both set) is preserved; a set that would violate it clears
the other marker (the result is exactly the new marker alone; nothing is
reordered). -/
theorem marker_invariant (s : MarkerState) (ops : List MarkerOp) (h : MarkerInv s) :
    MarkerInv (applyMarkerOps s ops) ∧
    (∀ pos o, 0 < s.duration → s.out_point = some o → o < pos →
      applyMarkerOp s (.setIn pos) = ⟨s.duration, some pos, none⟩) ∧
    (∀ pos i, 0 < s.duration → s.in_point = some i → pos < i →
      applyMarkerOp s (.setOut pos) = ⟨s.duration, none, some pos⟩) := by
  refine ⟨?_, ?_, ?_⟩
  · induction ops generalizing s with
    | nil => exact h
    | cons op rest ih =>
      exact ih (applyMarkerOp s op) (applyMarkerOp_inv h op)
  · intro pos o hd ho hlt
    simp [applyMarkerOp, setInPoint, not_le.mpr hd, ho, hlt]
  · intro pos i hd hi hlt
    simp [applyMarkerOp, setOutPoint, not_le.mpr hd, hi, hlt]

theorem marker_invariant_witness :
    MarkerInv (applyMarkerOps ⟨10, none, none⟩
      [MarkerOp.setIn 4, MarkerOp.setOut 7, MarkerOp.setIn 8, MarkerOp.clearOut]) ∧
    applyMarkerOp ⟨10, none, some 5⟩ (.setIn 6) = ⟨10, some 6, none⟩ := by
  constructor
  · exact (marker_invariant ⟨10, none, none⟩
      [MarkerOp.setIn 4, MarkerOp.setOut 7, MarkerOp.setIn 8, MarkerOp.clearOut]
      (fun i o hi ho => by simp at hi)).1
  · exact (marker_invariant ⟨10, none, some 5⟩ [] (fun i o hi ho => by simp at hi)).2.1 6 5
      (by norm_num) rfl (by norm_num)

/-- C2: a completed or failed result is applied only when its token equals the
generator's current token; a stale result leaves the displayed state exactly
unchanged.  This holds at every state, hence for every interleaving of job
starts and completions; in particular a job-N result arriving after job N+1
started (token bumped) is discarded. -/
theorem stale_result_discard :
    (∀ (s : ThumbView) (ev : ThumbEv) (g : ℕ),
      thumbEvToken ev = some g → g ≠ s.gen_id → thumbStep s ev = s) ∧
    (∀ (s : ThumbView) (ev : ThumbEv) (g : ℕ),
      thumbEvToken ev = some g → thumbStep s ev ≠ s → g = s.gen_id) ∧
    (∀ (s : WaveView) (ev : WaveEv) (g : ℕ),
      waveEvToken ev = some g → g ≠ s.gen_id → waveStep s ev = s) ∧
    (∀ (s : WaveView) (ev : WaveEv) (g : ℕ),
      waveEvToken ev = some g → waveStep s ev ≠ s → g = s.gen_id) ∧
    (∀ (s : ThumbView) (images : List (Option ℕ)) (times : List ℚ) (dur : ℚ),
      thumbStep (thumbStep (thumbStep s .start) .start)
        (.ready (startThumbs s).gen_id images times dur)
        = thumbStep (thumbStep s .start) .start) ∧
    (∀ (s : WaveView) (amps : List ℚ) (dur : ℚ),
      waveStep (waveStep (waveStep s .start) .start)
        (.ready (startWave s).gen_id amps dur)
        = waveStep (waveStep s .start) .start) := by
  have hthumb : ∀ (s : ThumbView) (ev : ThumbEv) (g : ℕ),
      thumbEvToken ev = some g → g ≠ s.gen_id → thumbStep s ev = s := by
    intro s ev g htok hne
    cases ev with
    | start => simp [thumbEvToken] at htok
    | ready gen images times dur =>
      simp [thumbEvToken] at htok; subst htok
      simp [thumbStep, onThumbsReady, hne]
    | failed gen reason =>
      simp [thumbEvToken] at htok; subst htok
      simp [thumbStep, onThumbsFailed, hne]
  have hwave : ∀ (s : WaveView) (ev : WaveEv) (g : ℕ),
      waveEvToken ev = some g → g ≠ s.gen_id → waveStep s ev = s := by
    intro s ev g htok hne
    cases ev with
    | start => simp [waveEvToken] at htok
    | ready gen amps dur =>
      simp [waveEvToken] at htok; subst htok
      simp [waveStep, onWaveReady, hne]
    | failed gen reason =>
      simp [waveEvToken] at htok; subst htok
      simp [waveStep, onWaveFailed, hne]
  refine ⟨hthumb, ?_, hwave, ?_, ?_, ?_⟩
  · intro s ev g htok hchg
    by_contra hne
    exact hchg (hthumb s ev g htok hne)
  · intro s ev g htok hchg
    by_contra hne
    exact hchg (hwave s ev g htok hne)
  · intro s images times dur
    exact hthumb _ _ _ rfl (by simp [thumbStep, startThumbs])
  · intro s amps dur
    exact hwave _ _ _ rfl (by simp [waveStep, startWave])

theorem stale_result_discard_witness :
    thumbStep ⟨2, true, some ([5], [0], 1), 1, 0⟩ (.ready 1 [some 9] [0] 3)
      = ⟨2, true, some ([5], [0], 1), 1, 0⟩ ∧
    waveStep ⟨4, true, some ([1/2], 2), 0⟩ (.failed 3 "audio err: boom")
      = ⟨4, true, some ([1/2], 2), 0⟩ := by
  constructor
  · exact stale_result_discard.1 ⟨2, true, some ([5], [0], 1), 1, 0⟩
      (.ready 1 [some 9] [0] 3) 1 rfl (by decide)
  · exact stale_result_discard.2.2.1 ⟨4, true, some ([1/2], 2), 0⟩
      (.failed 3 "audio err: boom") 3 rfl (by decide)

/-- C7 counterexample: a failure whose reason is neither "no audio" nor
"non-positive duration", carrying the current token, does not leave the
displayed thumbnails untouched: the strip is hidden. -/
theorem failure_hides_counterexample :
    ("decode err" ≠ "no audio" ∧ "decode err" ≠ "non-positive duration") ∧
    onThumbsFailed ⟨1, true, some ([7], [0], 2), 2, 0⟩ 1 "decode err"
      ≠ ⟨1, true, some ([7], [0], 2), 2, 0⟩ := by
  refine ⟨⟨by decide, by decide⟩, ?_⟩
  intro h
  have : (onThumbsFailed ⟨1, true, some ([7], [0], 2), 2, 0⟩ 1 "decode err").strip_visible
      = true := by rw [h]
  simp [onThumbsFailed] at this

/-- C7 (amended): a failure carrying the current token hides the corresponding
visual regardless of its reason string; only a stale failure leaves the
displayed state untouched. -/
theorem failure_hides_visual (sT : ThumbView) (sW : WaveView) (gT gW : ℕ)
    (rT rW : String) (hT : gT = sT.gen_id) (hW : gW = sW.gen_id) :
    onThumbsFailed sT gT rT = { sT with strip_visible := false } ∧
    onWaveFailed sW gW rW = { sW with visible := false } ∧
    (∀ g r, g ≠ sT.gen_id → onThumbsFailed sT g r = sT) ∧
    (∀ g r, g ≠ sW.gen_id → onWaveFailed sW g r = sW) := by
  refine ⟨?_, ?_, ?_, ?_⟩
  · simp [onThumbsFailed, hT]
  · simp [onWaveFailed, hW]
  · intro g r hne; simp [onThumbsFailed, hne]
  · intro g r hne; simp [onWaveFailed, hne]

theorem failure_hides_visual_witness :
    onThumbsFailed ⟨1, true, some ([7], [0], 2), 2, 0⟩ 1 "decode err"
      = ⟨1, false, some ([7], [0], 2), 2, 0⟩ ∧
    onWaveFailed ⟨3, true, some ([1], 2), 0⟩ 3 "audio err: x"
      = ⟨3, false, some ([1], 2), 0⟩ :=
  (failure_hides_visual ⟨1, true, some ([7], [0], 2), 2, 0⟩ ⟨3, true, some ([1], 2), 0⟩
    1 3 "decode err" "audio err: x" rfl rfl).1.symm ▸
    ⟨(failure_hides_visual ⟨1, true, some ([7], [0], 2), 2, 0⟩ ⟨3, true, some ([1], 2), 0⟩
      1 3 "decode err" "audio err: x" rfl rfl).1,
     (failure_hides_visual ⟨1, true, some ([7], [0], 2), 2, 0⟩ ⟨3, true, some ([1], 2), 0⟩
      1 3 "decode err" "audio err: x" rfl rfl).2.1⟩

/-! ### Drift correction (C5) -/

theorem maybeResyncAudio_mono (a : ℤ) (t : ℚ) : a ≤ maybeResyncAudio true a t := by
  unfold maybeResyncAudio
  simp only [Bool.true_eq_false, if_false]
  split_ifs with h
  · omega
  · exact le_refl a

/-- C5: while audio is playing, a video update that is ahead of the audio
clock by more than the 160 ms threshold advances the audio to the video
position; audio at or ahead of video is left unchanged; consequently over
every synthetic sequence of position updates the audio position never
rewinds. -/
theorem drift_correction :
    (∀ (audio_ms : ℤ) (t : ℚ), pyTrunc (t * 1000) - audio_ms > 160 →
      maybeResyncAudio true audio_ms t = pyTrunc (t * 1000)) ∧
    (∀ (audio_ms : ℤ) (t : ℚ), pyTrunc (t * 1000) ≤ audio_ms →
      maybeResyncAudio true audio_ms t = audio_ms) ∧
    (∀ (audio0 : ℤ) (ts : List ℚ), audio0 ≤ resyncRun audio0 ts) := by
  refine ⟨?_, ?_, ?_⟩
  · intro a t h
    unfold maybeResyncAudio
    simp only [Bool.true_eq_false, if_false]
    exact if_pos h
  · intro a t h
    unfold maybeResyncAudio
    simp only [Bool.true_eq_false, if_false]
    exact if_neg (by omega)
  · intro a0 ts
    unfold resyncRun
    induction ts generalizing a0 with
    | nil => exact le_refl a0
    | cons t rest ih =>
      exact le_trans (maybeResyncAudio_mono a0 t) (ih (maybeResyncAudio true a0 t))

theorem drift_correction_witness :
    (pyTrunc ((1 : ℚ) * 1000) - 0 > 160 ∧
      maybeResyncAudio true 0 1 = pyTrunc ((1 : ℚ) * 1000)) ∧
    ((pyTrunc ((1 : ℚ) * 1000) ≤ 2000) ∧ maybeResyncAudio true 2000 1 = 2000) := by
  have h1 : pyTrunc ((1 : ℚ) * 1000) - 0 > 160 := by unfold pyTrunc; norm_num
  have h2 : pyTrunc ((1 : ℚ) * 1000) ≤ 2000 := by unfold pyTrunc; norm_num
  exact ⟨⟨h1, drift_correction.1 0 1 h1⟩, ⟨h2, drift_correction.2.1 2000 1 h2⟩⟩

/-! ### Seek without a loaded source (C10) -/

/-- C10: with no source loaded, `seek(t)` returns before touching anything:
the controller (every `PlaybackState` field included) is unchanged, nothing is
decoded and no signal is emitted, and `position()` is `0.0`. -/
theorem seek_no_clip (c : Controller) (t : ℚ) (e : Bool) (h : c.hasClip = false) :
    seek c t e = (c, []) ∧ (seekD c t e false = (c, [], false)) ∧ position c = 0 := by
  refine ⟨?_, ?_, ?_⟩ <;> simp [seek, seekD, position, h]

theorem seek_no_clip_witness :
    seek initCtrl 5 true = (initCtrl, []) ∧ position initCtrl = 0 :=
  ⟨(seek_no_clip initCtrl 5 true rfl).1, (seek_no_clip initCtrl 5 true rfl).2.2⟩

/-! ### Load and seek clamping (C1, C8) -/

theorem load_result (c0 : Controller) (fps duration : ℚ) (hfps : fps ≠ 0)
    (hdur : 0 < duration) (htot : 0 < pyRound (fps * duration)) :
    (load c0 fps duration).1 =
      { c0 with hasClip := true,
                state := { playing := false, current_frame := 0,
                           total_frames := pyRound (fps * duration),
                           duration := duration, fps := fps } } := by
  unfold load seek seekD orDefault
  simp only [hfps, if_false, hdur, if_pos]
  have h0 : pyTrunc (0 : ℚ) = 0 := by unfold pyTrunc; norm_num
  simp [h0]

theorem load_eq (c0 : Controller) (fps duration : ℚ) (hfps : fps ≠ 0)
    (hdur : 0 < duration) (htot : 0 < pyRound (fps * duration)) :
    load c0 fps duration =
      ({ c0 with hasClip := true,
                 state := { playing := false, current_frame := 0,
                            total_frames := pyRound (fps * duration),
                            duration := duration, fps := fps } },
       [.clipLoaded duration, .stateChanged "stopped", .frameReady 0,
        .positionChanged 0]) := by
  have h1 := load_result c0 fps duration hfps hdur htot
  have hcast : ¬ pyRound (fps * duration) ≤ 0 := not_le.mpr htot
  have h0 : pyTrunc (0 : ℚ) = 0 := by unfold pyTrunc; norm_num
  refine Prod.ext h1 ?_
  unfold load seek seekD position orDefault
  simp [hfps, hdur, h0, hcast]

/-- C1 (amended): after `load`, for every `t`, `seek(t)` clamps by frame
index with Python `int` truncation — `position()` equals
`clamp(int(t*fps), 0, total_frames-1)/fps` — and the result lies in
`[0, duration)`.  (The spec's `round` in place of `int` is refuted by
`seek_round_counterexample`.) -/
theorem seek_clamps (c0 : Controller) (fps duration t : ℚ) (hfps : 0 < fps)
    (hdur : 0 < duration) (htot : 0 < pyRound (fps * duration)) :
    position (seek (load c0 fps duration).1 t true).1
      = (max 0 (min (pyTrunc (t * fps)) (pyRound (fps * duration) - 1)) : ℤ) / fps ∧
    0 ≤ position (seek (load c0 fps duration).1 t true).1 ∧
    position (seek (load c0 fps duration).1 t true).1 < duration := by
  have hne : fps ≠ 0 := ne_of_gt hfps
  rw [load_result c0 fps duration hne hdur htot]
  have hcast : ¬ pyRound (fps * duration) ≤ 0 := not_le.mpr htot
  unfold seek seekD position orDefault
  simp [hne, hcast]
  refine ⟨?_, ?_⟩
  · apply div_nonneg _ (le_of_lt hfps)
    exact_mod_cast le_max_left 0 _
  · have hF : max 0 (min (pyTrunc (t * fps)) (pyRound (fps * duration) - 1))
        ≤ pyRound (fps * duration) - 1 := by omega
    have hT : (pyRound (fps * duration) : ℚ) ≤ fps * duration + 1/2 :=
      pyRound_le (fps * duration)
    rw [div_lt_iff₀ hfps, mul_comm duration fps]
    have hFq : ((max 0 (min (pyTrunc (t * fps)) (pyRound (fps * duration) - 1)) : ℤ) : ℚ)
        ≤ (pyRound (fps * duration) : ℚ) - 1 := by exact_mod_cast hF
    push_cast at hFq
    linarith

theorem seek_clamps_witness :
    position (seek (load initCtrl 1 2).1 5 true).1
      = (max 0 (min (pyTrunc ((5:ℚ) * 1)) (pyRound ((1:ℚ) * 2) - 1)) : ℤ) / 1 :=
  (seek_clamps initCtrl 1 2 5 (by norm_num) (by norm_num)
    (by unfold pyRound; norm_num)).1

/-- C1 counterexample: the spec's formula `clamp(round(t*fps),0,total-1)/fps`
disagrees with the code at `fps = 24`, `duration = 1`, `t = 0.9`: the code's
`int(t*fps)` truncates `21.6` to `21` (position `7/8`), the spec's `round`
gives `22` (position `11/12`). -/
theorem seek_round_counterexample :
    position (seek (load initCtrl 24 1).1 (9/10) true).1
      ≠ seekPositionSpec 24 (pyRound ((24:ℚ) * 1)) (9/10) := by
  have hload := load_result initCtrl 24 1 (by norm_num) (by norm_num)
    (by unfold pyRound; norm_num)
  have hT : pyRound ((24:ℚ) * 1) = 24 := by unfold pyRound; norm_num
  have htr : pyTrunc ((108 : ℚ) / 5) = 21 := by unfold pyTrunc; norm_num
  have hrd : round ((108 : ℚ) / 5) = 22 := by rw [round_eq]; norm_num
  rw [hload]
  unfold seek seekD position seekPositionSpec orDefault
  rw [hT]
  norm_num
  rw [htr, hrd]
  norm_num [max_def, min_def]

/-- C8: `load` computes `total_frames = round(fps*duration)`, leaves the
state Stopped with `position() = 0`, and emits the first frame through an
internal `seek(0)` (events `clipLoaded`, `stateChanged "stopped"`,
`frameReady 0`, `positionChanged 0`) with no explicit seek by the caller; a
0.5 s clip at 24 fps gets `total_frames = 12`. -/
theorem load_spec (c0 : Controller) (fps duration : ℚ) (hfps : fps ≠ 0)
    (hdur : 0 < duration) (htot : 0 < pyRound (fps * duration)) :
    ((load c0 fps duration).1.state.total_frames = pyRound (fps * duration) ∧
     (load c0 fps duration).1.state.playing = false ∧
     position (load c0 fps duration).1 = 0 ∧
     (load c0 fps duration).2 =
       [.clipLoaded duration, .stateChanged "stopped", .frameReady 0,
        .positionChanged 0]) ∧
    (load initCtrl 24 (1/2)).1.state.total_frames = 12 := by
  have h := load_eq c0 fps duration hfps hdur htot
  have h12 : pyRound ((24:ℚ) * (1/2)) = 12 := by unfold pyRound; norm_num
  have h2 := load_eq initCtrl 24 (1/2) (by norm_num) (by norm_num) (by rw [h12]; norm_num)
  refine ⟨⟨?_, ?_, ?_, ?_⟩, ?_⟩
  · rw [h]
  · rw [h]
  · rw [h]
    unfold position
    have hcast : ¬ pyRound (fps * duration) ≤ 0 := not_le.mpr htot
    simp [hcast]
  · rw [h]
  · rw [h2, h12]

theorem load_spec_witness :
    (load initCtrl 24 (1/2)).1.state.playing = false ∧
    position (load initCtrl 24 (1/2)).1 = 0 ∧
    (load initCtrl 24 (1/2)).1.state.total_frames = 12 := by
  have h12 : pyRound ((24:ℚ) * (1/2)) = 12 := by unfold pyRound; norm_num
  have h := load_spec initCtrl 24 (1/2) (by norm_num) (by norm_num)
    (by rw [h12]; norm_num)
  exact ⟨h.1.2.1, h.1.2.2.1, h.2⟩

/-! ### Tick pacing (C6, C4) -/

theorem tickTarget_gt (c : Controller) (now : ℚ)
    (hthr : 0 ≤ c.sync_threshold_frames) :
    c.state.current_frame < tickTarget c now := by
  unfold tickTarget
  rcases h : c.play_start_time with _ | t0 <;> simp only [h]
  · omega
  · split_ifs <;> omega

/-- A tick whose computed target stays below `total_frames` on the
successful-decode path: the frame advances to the target and
`frameReady`/`positionChanged` are emitted. -/
theorem tick_continue (c : Controller) (now : ℚ) (hclip : c.hasClip = true)
    (htar : tickTarget c now < c.state.total_frames) :
    tick c now true =
      ⟨{ c with state := { c.state with current_frame := tickTarget c now } },
       [.frameReady (position { c with state :=
          { c.state with current_frame := tickTarget c now } }),
        .positionChanged (position { c with state :=
          { c.state with current_frame := tickTarget c now } })], false⟩ := by
  unfold tick tickEmitTail
  simp [hclip, not_le.mpr htar]

/-- A tick whose target reaches `total_frames` stops playback (decode
succeeding): the timer is stopped, `playing` cleared, nothing raised. -/
theorem tick_stop (c : Controller) (now : ℚ) (hclip : c.hasClip = true)
    (htar : c.state.total_frames ≤ tickTarget c now) :
    (tick c now true).ctrl.state.playing = false ∧
    (tick c now true).ctrl.timerActive = false ∧
    (tick c now true).raised = false := by
  unfold tick stopD pause seekD
  simp [hclip, htar]

theorem runPositions_chain (c : Controller) (nows : List ℚ)
    (hclip : c.hasClip = true) (hfps : 0 < c.state.fps)
    (htot : 0 < c.state.total_frames) (hthr : 0 ≤ c.sync_threshold_frames)
    (hcur : 0 ≤ c.state.current_frame) :
    List.Chain' (· ≤ ·) (position c :: runPositions c nows) := by
  induction nows generalizing c with
  | nil => simp [runPositions]
  | cons now rest ih =>
    have hne : c.state.fps ≠ 0 := ne_of_gt hfps
    simp only [runPositions]
    by_cases htar : tickTarget c now < c.state.total_frames
    · have hlt : c.state.current_frame < tickTarget c now := tickTarget_gt c now hthr
      by_cases hp : c.state.playing = true
      · have hmono : position c ≤ position
            { c with state := { c.state with current_frame := tickTarget c now } } := by
          unfold position orDefault
          simp [hclip, not_le.mpr htot, hne]
          gcongr
        have hcur2 : 0 ≤ ({ c with state :=
            { c.state with current_frame := tickTarget c now } } : Controller).state.current_frame := by
          show 0 ≤ tickTarget c now
          omega
        have hchain := ih { c with state := { c.state with current_frame := tickTarget c now } }
          hclip hfps htot hthr hcur2
        simp only [tick_continue c now hclip htar]
        simp [hp, emittedPositions]
        exact ⟨by simpa [hp] using hmono, by simpa [hp] using hchain⟩
      · simp only [tick_continue c now hclip htar]
        simp [hp]
    · have hstop := tick_stop c now hclip (le_of_not_lt htar)
      rw [if_neg (by simp [hstop.1])]
      simp

/-- C6: while playing, the positions emitted at successive ticks form a
non-decreasing sequence until playback stops (reaching the last frame), under
both pacing policies (`frame_skip_enabled` arbitrary). -/
theorem playback_monotonic (c : Controller) (nows : List ℚ)
    (hclip : c.hasClip = true) (hfps : 0 < c.state.fps)
    (htot : 0 < c.state.total_frames) (hthr : 0 ≤ c.sync_threshold_frames)
    (hcur : 0 ≤ c.state.current_frame) :
    List.Chain' (· ≤ ·) (runPositions c nows) :=
  (runPositions_chain c nows hclip hfps htot hthr hcur).tail

theorem playback_monotonic_witness :
    List.Chain' (· ≤ ·)
      (runPositions
        { hasClip := true,
          state := { playing := true, current_frame := 0, total_frames := 5,
                     duration := 1/2, fps := 10 },
          timerActive := true, play_start_time := some 0,
          frame_skip_enabled := true, sync_threshold_frames := 2 }
        [1/10, 2/10]) :=
  playback_monotonic _ [1/10, 2/10] rfl (by norm_num) (by norm_num) (by norm_num)
    (by norm_num)

/-- C4 counterexample: a decode exception during a mid-playback tick does not
halt playback: the exception escapes `_tick`, yet the timer stays active and
`playing` stays true (the next tick will retry the decode); no playback-error
event is emitted (none exists). -/
theorem decode_error_counterexample :
    (tick { hasClip := true,
            state := { playing := true, current_frame := 2, total_frames := 10,
                       duration := 1, fps := 10 },
            timerActive := true, play_start_time := some 0,
            frame_skip_enabled := true, sync_threshold_frames := 2 }
        (3/10) false).raised = true ∧
    (tick { hasClip := true,
            state := { playing := true, current_frame := 2, total_frames := 10,
                       duration := 1, fps := 10 },
            timerActive := true, play_start_time := some 0,
            frame_skip_enabled := true, sync_threshold_frames := 2 }
        (3/10) false).ctrl.timerActive = true ∧
    (tick { hasClip := true,
            state := { playing := true, current_frame := 2, total_frames := 10,
                       duration := 1, fps := 10 },
            timerActive := true, play_start_time := some 0,
            frame_skip_enabled := true, sync_threshold_frames := 2 }
        (3/10) false).ctrl.state.playing = true := by
  have htr : pyTrunc (3 : ℚ) = 3 := by unfold pyTrunc; norm_num
  unfold tick tickTarget tickEmitTail orDefault
  norm_num [htr]

/-- C4 (amended): when decoding throws during a mid-playback tick (computed
target below `total_frames`), the exception escapes `_tick` with no event
emitted; the timer and `playing` flag are untouched, so the next tick retries
automatically, and the `PlaybackState` is not corrupted: `current_frame`
advances to the target, staying within `[0, total_frames)`, with all other
fields unchanged. -/
theorem decode_error_tick (c : Controller) (now : ℚ) (hclip : c.hasClip = true)
    (hcur : 0 ≤ c.state.current_frame) (hthr : 0 ≤ c.sync_threshold_frames)
    (htar : tickTarget c now < c.state.total_frames) :
    tick c now false =
      ⟨{ c with state := { c.state with current_frame := tickTarget c now } },
       [], true⟩ ∧
    0 ≤ tickTarget c now ∧ tickTarget c now < c.state.total_frames := by
  refine ⟨?_, ?_, htar⟩
  · unfold tick tickEmitTail
    simp [hclip, not_le.mpr htar]
  · have := tickTarget_gt c now hthr
    omega

theorem decode_error_tick_witness :
    tick { hasClip := true,
           state := { playing := true, current_frame := 2, total_frames := 10,
                      duration := 1, fps := 10 },
           timerActive := true, play_start_time := some 0,
           frame_skip_enabled := false, sync_threshold_frames := 2 }
      (9/10) false =
      ⟨{ hasClip := true,
         state := { playing := true,
                    current_frame := tickTarget
                      { hasClip := true,
                        state := { playing := true, current_frame := 2,
                                   total_frames := 10, duration := 1, fps := 10 },
                        timerActive := true, play_start_time := some 0,
                        frame_skip_enabled := false, sync_threshold_frames := 2 }
                      (9/10),
                    total_frames := 10, duration := 1, fps := 10 },
         timerActive := true, play_start_time := some 0,
         frame_skip_enabled := false, sync_threshold_frames := 2 }, [], true⟩ :=
  (decode_error_tick _ (9/10) rfl (by norm_num) (by norm_num)
    (by unfold tickTarget pyTrunc orDefault; norm_num)).1

end Clipdozer
